import Mathlib

/-!
Shallow embedding of the jQuery monthSelector widget
(`src/jquery.monthSelector-1.0.js` and the extended variant in
`src/unnamed/part_000`).

The embedding covers the date model (JS `Date` instants in calendar form),
the `_setDate` logic (argument validation, range clamping, month/year select
values, `disabled` attributes of month options and navigation buttons,
callback firing), the helper functions `__getEndOfPreviousMonth` and
`__getStartOfNextMonth`, and the constructor validation of
`$.fn.monthSelector`.  Presentation concerns (CSS classes, hover handlers,
element assembly) are out of scope, as are the display labels of options.
-/

namespace MonthSelector

/-- Milliseconds in one civil day, the resolution of the JS `Date`
primitive. -/
def msPerDay : Nat := 86400000

/-- A JS `Date` instant in calendar form: proleptic Gregorian year, zero-based
month (0 = January), one-based day of month, and milliseconds elapsed since
midnight.  A normalized value (see `ValidDate`) corresponds one-to-one and
order-isomorphically to a JS millisecond timestamp. -/
structure JSDate where
  year  : Int
  month : Nat
  day   : Nat
  ms    : Nat
  deriving DecidableEq, Repr

/-- Gregorian leap-year rule, as implemented by the JS `Date` primitive. -/
def isLeap (y : Int) : Bool :=
  (y % 4 == 0 && y % 100 != 0) || y % 400 == 0

/-- Number of days in zero-based month `m` of year `y`.  The JS code never
computes month lengths itself; this is the calendar authority that `Date`
rollover defers to. -/
def daysInMonth (y : Int) (m : Nat) : Nat :=
  match m with
  | 1 => if isLeap y then 29 else 28
  | 3 | 5 | 8 | 10 => 30
  | _ => 31

/-- The proposition behind JS `a < b` on two `Date` values: comparison of the
underlying millisecond timestamps, which on normalized calendar instants is
lexicographic on (year, month, day, time-of-day). -/
def DateLtP (a b : JSDate) : Prop :=
  a.year < b.year ∨ (a.year = b.year ∧ (a.month < b.month ∨ (a.month = b.month ∧
    (a.day < b.day ∨ (a.day = b.day ∧ a.ms < b.ms)))))

instance (a b : JSDate) : Decidable (DateLtP a b) := by
  unfold DateLtP; infer_instance

/-- JS relational `a < b` on two `Date` values. -/
def dateLt (a b : JSDate) : Bool :=
  decide (DateLtP a b)

/-- JS relational `a <= b` on two `Date` values (the negation of `b < a`). -/
def dateLe (a b : JSDate) : Bool :=
  !dateLt b a

/-- `new Date(year, month, 1)`: JS normalizes an out-of-range month index by
carrying into the year with floor division.  (`/` and `%` on `Int` are
Euclidean, which agrees with floor division for the positive divisor 12.) -/
def mkDate (year month : Int) : JSDate :=
  ⟨year + month / 12, (month % 12).toNat, 1, 0⟩

/-- `new Date(d.getTime() - 1)` on a normalized date: step one millisecond
backwards, borrowing across day, month and year boundaries exactly as the
millisecond timestamp decrement does. -/
def predMs (d : JSDate) : JSDate :=
  if 0 < d.ms then ⟨d.year, d.month, d.day, d.ms - 1⟩
  else if 1 < d.day then ⟨d.year, d.month, d.day - 1, msPerDay - 1⟩
  else if 0 < d.month then ⟨d.year, d.month - 1, daysInMonth d.year (d.month - 1), msPerDay - 1⟩
  else ⟨d.year - 1, 11, daysInMonth (d.year - 1) 11, msPerDay - 1⟩

/-- `__getEndOfPreviousMonth(month, year)`:
`new Date((new Date(year, month, 1)).getTime() - 1)`. -/
def getEndOfPreviousMonth (month : Nat) (year : Int) : JSDate :=
  predMs (mkDate year month)

/-- `__getStartOfNextMonth(month, year)`: `new Date(year, month + 1, 1)`. -/
def getStartOfNextMonth (month : Nat) (year : Int) : JSDate :=
  mkDate year ((month : Int) + 1)

/-- `new Date(d.getFullYear(), d.getMonth(), 1)`: truncation of an instant to
the first instant of its month. -/
def firstOfMonth (d : JSDate) : JSDate :=
  ⟨d.year, d.month, 1, 0⟩

/-- Normalized calendar instants: the image of the JS `Date`
timestamp-to-calendar decomposition.  Every value a JS `Date` can hold is of
this shape. -/
def ValidDate (d : JSDate) : Prop :=
  d.month < 12 ∧ 1 ≤ d.day ∧ d.day ≤ daysInMonth d.year d.month ∧ d.ms < msPerDay

instance (d : JSDate) : Decidable (ValidDate d) := by
  unfold ValidDate; infer_instance

/-- The configuration fields that the `_setDate` logic reads: the validated
`minDate`/`maxDate` bounds, whether a `callback` function was configured, and
the `scope` value bound as the callback receiver (modelled as an opaque
token). -/
structure Config where
  minDate : JSDate
  maxDate : JSDate
  hasCallback : Bool
  scope : Int
  deriving DecidableEq, Repr

/-- The widget state `_setDate` writes: the selected values of the month and
year selects, the `disabled` attribute of each of the 12 month options
(indexed by option value), and the `disabled` attributes of the previous,
first, next and last buttons. -/
structure WState where
  month : Nat
  year : Int
  monthOptionDisabled : List Bool
  prevDisabled : Bool
  firstDisabled : Bool
  nextDisabled : Bool
  lastDisabled : Bool
  deriving DecidableEq, Repr

/-- Disable condition for the month option with value `m` when `year` is
displayed: `year === minYear && val < minMonth || year === maxYear && val >
maxMonth`. -/
def monthDisabledFlag (cfg : Config) (year : Int) (m : Nat) : Bool :=
  (decide (year = cfg.minDate.year) && decide (m < cfg.minDate.month)) ||
  (decide (year = cfg.maxDate.year) && decide (cfg.maxDate.month < m))

/-- The "Pull date into range" step of `_setDate`: `if (date > config.maxDate)
date = config.maxDate; else if (date < config.minDate) date =
config.minDate;`. -/
def clamp (cfg : Config) (date : JSDate) : JSDate :=
  if dateLt cfg.maxDate date then cfg.maxDate
  else if dateLt date cfg.minDate then cfg.minDate
  else date

/-- The state `_setDate` builds from a valid `date` argument: clamp into
range, set the month/year select values, and recompute every `disabled`
attribute (the 12 month options via the loop over `$month.find('option')`,
and the previous/first and next/last buttons). -/
def applyDate (cfg : Config) (d : JSDate) : WState :=
  let date := clamp cfg d
  let month := date.month
  let year := date.year
  { month := month
    year := year
    monthOptionDisabled := (List.range 12).map (monthDisabledFlag cfg year)
    prevDisabled := dateLt (getEndOfPreviousMonth month year) cfg.minDate
    firstDisabled := dateLt (getEndOfPreviousMonth month year) cfg.minDate
    nextDisabled := dateLt cfg.maxDate (getStartOfNextMonth month year)
    lastDisabled := dateLt cfg.maxDate (getStartOfNextMonth month year) }

/-- `_getSelectedDate()`: `new Date(year, month, 1)` parsed back from the
month and year select values. -/
def getSelectedDate (st : WState) : JSDate :=
  mkDate st.year st.month

/-- The error thrown by `_setDate` for an argument that is not a `Date` or is
an `Invalid Date` (the spec's `InvalidDateError`). -/
inductive SetDateErr
  | invalidDate
  deriving DecidableEq, Repr

/-- One `_setDate(cand)` call on prior widget state `st`; `none` stands for an
argument that does not parse to a valid calendar instant.  Returns the state
after the call, the error if one was thrown (in which case the returned state
is the unchanged prior state and no callback ran), and the list of
`(scope, argument)` callback invocations the call performed. -/
def setDate (cfg : Config) (st : WState) (cand : Option JSDate) :
    WState × Option SetDateErr × List (Int × JSDate) :=
  match cand with
  | none => (st, some SetDateErr.invalidDate, [])
  | some d =>
    let st' := applyDate cfg d
    (st', none, if cfg.hasCallback then [(cfg.scope, getSelectedDate st')] else [])

/-- The errors thrown by the `$.fn.monthSelector` constructor (the spec's
`ConfigurationError` cases), in source order. -/
inductive ConfigErr
  | invalidMinDate
  | invalidMaxDate
  | invalidSelectedDate
  | minExceedsMax
  deriving DecidableEq, Repr

/-- The year options generated for the year select: `for (var j = maxYear;
j >= minYear; --j)`, i.e. `maxYear` down to `minYear` inclusive in descending
order. -/
def yearOptions (cfg : Config) : List Int :=
  (List.range (cfg.maxDate.year - cfg.minDate.year + 1).toNat).map
    (fun i : Nat => cfg.maxDate.year - (i : Int))

/-- The `$.fn.monthSelector` constructor: coerce/validate the three configured
dates (`none` stands for a value that does not parse to a valid date), check
`minDate > maxDate`, then build the widget and run the initial
`_setDate(config.selectedDate)`.  On error the constructor aborts with no
widget state; on success it returns the configuration, the resulting state
and the callback invocations of the initial `_setDate` call. -/
def monthSelector (minD maxD selD : Option JSDate) (hasCallback : Bool) (scope : Int) :
    Except ConfigErr (Config × WState × List (Int × JSDate)) :=
  match minD with
  | none => Except.error ConfigErr.invalidMinDate
  | some mn =>
    match maxD with
    | none => Except.error ConfigErr.invalidMaxDate
    | some mx =>
      match selD with
      | none => Except.error ConfigErr.invalidSelectedDate
      | some sel =>
        if dateLt mx mn then Except.error ConfigErr.minExceedsMax
        else
          let cfg : Config := ⟨mn, mx, hasCallback, scope⟩
          match setDate cfg ⟨0, 0, [], false, false, false, false⟩ (some sel) with
          | (st, _, calls) => Except.ok (cfg, st, calls)

/-- `true` exactly on a successful constructor result. -/
def constructionOk (r : Except ConfigErr (Config × WState × List (Int × JSDate))) : Bool :=
  match r with
  | Except.ok _ => true
  | Except.error _ => false

/-! ### Basic facts about the date order and the calendar helpers -/

theorem dateLt_iff (a b : JSDate) : dateLt a b = true ↔ DateLtP a b := by
  simp [dateLt]

theorem dateLt_false_iff (a b : JSDate) : dateLt a b = false ↔ ¬DateLtP a b := by
  simp [dateLt]

theorem dateLe_iff (a b : JSDate) : dateLe a b = true ↔ ¬DateLtP b a := by
  simp [dateLe, dateLt]

theorem daysInMonth_pos (y : Int) (m : Nat) : 1 ≤ daysInMonth y m := by
  unfold daysInMonth
  split
  · split <;> omega
  all_goals omega

theorem daysInMonth_le (y : Int) (m : Nat) : daysInMonth y m ≤ 31 := by
  unfold daysInMonth
  split
  · split <;> omega
  all_goals omega

theorem mkDate_natCast (y : Int) (m : Nat) (h : m < 12) :
    mkDate y (m : Int) = ⟨y, m, 1, 0⟩ := by
  unfold mkDate
  have hnn : (0 : Int) ≤ (m : Int) := Int.natCast_nonneg m
  have hlt : ((m : Int)) < 12 := by exact_mod_cast h
  rw [Int.ediv_eq_zero_of_lt hnn hlt, Int.emod_eq_of_lt hnn hlt]
  simp

theorem getEndOfPreviousMonth_zero (y : Int) :
    getEndOfPreviousMonth 0 y = ⟨y - 1, 11, 31, msPerDay - 1⟩ := by
  unfold getEndOfPreviousMonth
  rw [mkDate_natCast y 0 (by omega)]
  rfl

theorem getEndOfPreviousMonth_succ (y : Int) (m : Nat) (h : m + 1 < 12) :
    getEndOfPreviousMonth (m + 1) y = ⟨y, m, daysInMonth y m, msPerDay - 1⟩ := by
  unfold getEndOfPreviousMonth
  rw [mkDate_natCast y (m + 1) h]
  show predMs ⟨y, m + 1, 1, 0⟩ = _
  unfold predMs
  norm_num

theorem getStartOfNextMonth_small (y : Int) (m : Nat) (h : m + 1 < 12) :
    getStartOfNextMonth m y = ⟨y, m + 1, 1, 0⟩ := by
  unfold getStartOfNextMonth
  have hc : ((m : Int)) + 1 = ((m + 1 : Nat) : Int) := by push_cast; ring
  rw [hc, mkDate_natCast y (m + 1) h]

theorem getStartOfNextMonth_eleven (y : Int) :
    getStartOfNextMonth 11 y = ⟨y + 1, 0, 1, 0⟩ := by
  unfold getStartOfNextMonth mkDate
  norm_num

/-! ### Facts about clamping and the state built by `_setDate` -/

theorem clamp_cases (cfg : Config) (d : JSDate) :
    clamp cfg d = cfg.maxDate ∨ clamp cfg d = cfg.minDate ∨ clamp cfg d = d := by
  unfold clamp
  split
  · exact Or.inl rfl
  · split
    · exact Or.inr (Or.inl rfl)
    · exact Or.inr (Or.inr rfl)

theorem clamp_valid (cfg : Config) (d : JSDate) (hmn : ValidDate cfg.minDate)
    (hmx : ValidDate cfg.maxDate) (hd : ValidDate d) : ValidDate (clamp cfg d) := by
  rcases clamp_cases cfg d with h | h | h <;> rw [h] <;> assumption

theorem clamp_ge_min (cfg : Config) (d : JSDate)
    (hr : dateLe cfg.minDate cfg.maxDate = true) :
    dateLe cfg.minDate (clamp cfg d) = true := by
  rw [dateLe_iff] at hr ⊢
  unfold clamp
  split
  · exact hr
  · split
    · unfold DateLtP; omega
    · rename_i h2
      rw [show (¬dateLt d cfg.minDate = true) = (dateLt d cfg.minDate = false) from by simp] at h2
      rw [dateLt_false_iff] at h2
      exact h2

theorem clamp_le_max (cfg : Config) (d : JSDate)
    (hr : dateLe cfg.minDate cfg.maxDate = true) :
    dateLe (clamp cfg d) cfg.maxDate = true := by
  rw [dateLe_iff] at hr ⊢
  unfold clamp
  split
  · unfold DateLtP; omega
  · split
    · exact hr
    · rename_i h1 _
      rw [show (¬dateLt cfg.maxDate d = true) = (dateLt cfg.maxDate d = false) from by simp] at h1
      rw [dateLt_false_iff] at h1
      exact h1

theorem setDate_some_fst (cfg : Config) (st : WState) (d : JSDate) :
    (setDate cfg st (some d)).1 = applyDate cfg d := rfl

theorem applyDate_month (cfg : Config) (d : JSDate) :
    (applyDate cfg d).month = (clamp cfg d).month := rfl

theorem applyDate_year (cfg : Config) (d : JSDate) :
    (applyDate cfg d).year = (clamp cfg d).year := rfl

theorem applyDate_options (cfg : Config) (d : JSDate) :
    (applyDate cfg d).monthOptionDisabled =
      (List.range 12).map (monthDisabledFlag cfg (applyDate cfg d).year) := rfl

theorem getSelectedDate_applyDate (cfg : Config) (d : JSDate)
    (h : (clamp cfg d).month < 12) :
    getSelectedDate (applyDate cfg d) = firstOfMonth (clamp cfg d) := by
  show mkDate (clamp cfg d).year ((clamp cfg d).month : Int) = _
  rw [mkDate_natCast _ _ h]
  rfl

/-- For a displayed month/year taken from an instant `e` with `min <= e`, the
previous-button condition `endOfPreviousMonth(month, year) < min` holds exactly
when the displayed month/year is the month/year of `min`. -/
theorem prev_disabled_iff (mn e : JSDate) (hmn : ValidDate mn) (he : ValidDate e)
    (hge : dateLe mn e = true) :
    (dateLt (getEndOfPreviousMonth e.month e.year) mn = true ↔
      (e.month = mn.month ∧ e.year = mn.year)) := by
  obtain ⟨ey, em, ed, ems⟩ := e
  obtain ⟨my, mm, md, mms⟩ := mn
  obtain ⟨hm12, hd1, hdM, hms⟩ := he
  obtain ⟨hm12', hd1', hdM', hms'⟩ := hmn
  rw [dateLe_iff] at hge
  unfold DateLtP at hge
  dsimp only at *
  by_cases h0 : em = 0
  · rw [h0] at hge ⊢
    rw [getEndOfPreviousMonth_zero, dateLt_iff]
    unfold DateLtP
    dsimp only
    have h31 : daysInMonth my mm ≤ 31 := daysInMonth_le my mm
    omega
  · obtain ⟨k, rfl⟩ : ∃ k, em = k + 1 := ⟨em - 1, by omega⟩
    rw [getEndOfPreviousMonth_succ ey k (by omega), dateLt_iff]
    unfold DateLtP
    dsimp only
    have hb : my = ey → mm = k → md ≤ daysInMonth ey k := by
      intro h1 h2
      rw [← h1, ← h2]
      exact hdM'
    omega

/-- For a displayed month/year taken from an instant `e` with `e <= max`, the
next-button condition `startOfNextMonth(month, year) > max` holds exactly when
the displayed month/year is the month/year of `max`. -/
theorem next_disabled_iff (mx e : JSDate) (hmx : ValidDate mx) (he : ValidDate e)
    (hle : dateLe e mx = true) :
    (dateLt mx (getStartOfNextMonth e.month e.year) = true ↔
      (e.month = mx.month ∧ e.year = mx.year)) := by
  obtain ⟨ey, em, ed, ems⟩ := e
  obtain ⟨xy, xm, xd, xms⟩ := mx
  obtain ⟨hm12, hd1, hdM, hms⟩ := he
  obtain ⟨hm12', hd1', hdM', hms'⟩ := hmx
  rw [dateLe_iff] at hle
  unfold DateLtP at hle
  dsimp only at *
  by_cases h11 : em = 11
  · rw [h11] at hle ⊢
    rw [getStartOfNextMonth_eleven, dateLt_iff]
    unfold DateLtP
    dsimp only
    omega
  · rw [getStartOfNextMonth_small ey em (by omega), dateLt_iff]
    unfold DateLtP
    dsimp only
    omega

/-- The month option for the displayed month itself is never disabled when the
displayed month/year comes from an instant between the bounds. -/
theorem monthDisabledFlag_self (cfg : Config) (e : JSDate)
    (hge : dateLe cfg.minDate e = true) (hle : dateLe e cfg.maxDate = true) :
    monthDisabledFlag cfg e.year e.month = false := by
  rw [dateLe_iff] at hge hle
  unfold DateLtP at hge hle
  unfold monthDisabledFlag
  simp only [Bool.or_eq_false_iff, Bool.and_eq_false_iff, decide_eq_false_iff_not]
  omega

/-- An instant between the bounds displays a year between the bound years. -/
theorem year_between (cfg : Config) (e : JSDate)
    (hge : dateLe cfg.minDate e = true) (hle : dateLe e cfg.maxDate = true) :
    cfg.minDate.year ≤ e.year ∧ e.year ≤ cfg.maxDate.year := by
  rw [dateLe_iff] at hge hle
  unfold DateLtP at hge hle
  omega

/-- Every year between the bound years is one of the generated year options. -/
theorem year_mem_options (cfg : Config) (y : Int)
    (h1 : cfg.minDate.year ≤ y) (h2 : y ≤ cfg.maxDate.year) :
    y ∈ yearOptions cfg := by
  unfold yearOptions
  apply List.mem_map.mpr
  refine ⟨(cfg.maxDate.year - y).toNat, ?_, ?_⟩
  · refine List.mem_range.mpr ?_
    omega
  · omega

/-- Successful construction: when the three dates parse and
`minDate > maxDate` fails, the constructor returns the widget state of the
initial `_setDate(config.selectedDate)` call. -/
theorem monthSelector_ok (mn mx sel : JSDate) (cb : Bool) (sc : Int)
    (h : dateLt mx mn = false) :
    monthSelector (some mn) (some mx) (some sel) cb sc =
      Except.ok (⟨mn, mx, cb, sc⟩, applyDate ⟨mn, mx, cb, sc⟩ sel,
        if cb then [(sc, getSelectedDate (applyDate ⟨mn, mx, cb, sc⟩ sel))] else []) := by
  have hred : monthSelector (some mn) (some mx) (some sel) cb sc =
      (if dateLt mx mn then Except.error ConfigErr.minExceedsMax
       else Except.ok (⟨mn, mx, cb, sc⟩, applyDate ⟨mn, mx, cb, sc⟩ sel,
         if cb then [(sc, getSelectedDate (applyDate ⟨mn, mx, cb, sc⟩ sel))] else [])) := rfl
  rw [hred, h]
  simp

/-! ### Sample configuration used by the witnesses, taken from the spec's
example scenario: min = 2020-01-01, max = 2020-06-15, candidate =
2020-08-01. -/

def sampleMin : JSDate := ⟨2020, 0, 1, 0⟩

def sampleMax : JSDate := ⟨2020, 5, 15, 0⟩

def sampleCfg : Config := ⟨sampleMin, sampleMax, true, 0⟩

def sampleState : WState := ⟨0, 2020, [], false, false, false, false⟩

def sampleDate : JSDate := ⟨2020, 7, 1, 0⟩

/-! ### The claims -/

/-- Claim C4: after every `setDate` with resulting displayed (month, year),
the Previous and First actions are disabled exactly when
`endOfPreviousMonth(month, year) < min`, and the Next and Last actions are
disabled exactly when `startOfNextMonth(month, year) > max`, the comparisons
being full-instant comparisons against the configured bounds. -/
theorem c4_nav_button_conditions (cfg : Config) (st : WState) (d : JSDate) :
    ((setDate cfg st (some d)).1.prevDisabled =
      dateLt (getEndOfPreviousMonth (setDate cfg st (some d)).1.month
        (setDate cfg st (some d)).1.year) cfg.minDate) ∧
    ((setDate cfg st (some d)).1.firstDisabled =
      dateLt (getEndOfPreviousMonth (setDate cfg st (some d)).1.month
        (setDate cfg st (some d)).1.year) cfg.minDate) ∧
    ((setDate cfg st (some d)).1.nextDisabled =
      dateLt cfg.maxDate (getStartOfNextMonth (setDate cfg st (some d)).1.month
        (setDate cfg st (some d)).1.year)) ∧
    ((setDate cfg st (some d)).1.lastDisabled =
      dateLt cfg.maxDate (getStartOfNextMonth (setDate cfg st (some d)).1.month
        (setDate cfg st (some d)).1.year)) :=
  ⟨rfl, rfl, rfl, rfl⟩

/-- Claim C8: the calendar-boundary helpers defer to the date primitive:
`endOfPreviousMonth(0, Y)` is the last instant of December of year `Y - 1`,
`startOfNextMonth(11, Y)` is the first instant of January of year `Y + 1`,
and crossing a leap-year February gives Feb 29 2024 and Feb 28 2023
respectively. -/
theorem c8_calendar_boundaries :
    (∀ Y : Int, getEndOfPreviousMonth 0 Y = ⟨Y - 1, 11, 31, msPerDay - 1⟩) ∧
    (∀ Y : Int, getStartOfNextMonth 11 Y = ⟨Y + 1, 0, 1, 0⟩) ∧
    getEndOfPreviousMonth 2 2024 = ⟨2024, 1, 29, msPerDay - 1⟩ ∧
    getEndOfPreviousMonth 2 2023 = ⟨2023, 1, 28, msPerDay - 1⟩ := by
  refine ⟨fun Y => getEndOfPreviousMonth_zero Y, fun Y => getStartOfNextMonth_eleven Y, ?_, ?_⟩
  · decide
  · decide

/-- Claim C5: `setDate` fails with the invalid-date error exactly when the
candidate does not parse to a valid calendar instant, and in that case it
aborts before any state mutation or callback invocation, leaving the prior
widget state unchanged. -/
theorem c5_invalid_date_rejected (cfg : Config) (st : WState) (cand : Option JSDate) :
    ((setDate cfg st cand).2.1.isSome ↔ cand = none) ∧
    (cand = none →
      (setDate cfg st cand).1 = st ∧ (setDate cfg st cand).2.2 = []) := by
  cases cand <;> simp [setDate]

/-- Witness for C5 at the sample configuration and an unparseable candidate. -/
theorem c5_witness :
    (setDate sampleCfg sampleState none).1 = sampleState ∧
    (setDate sampleCfg sampleState none).2.2 = [] :=
  (c5_invalid_date_rejected sampleCfg sampleState none).2 rfl

/-- Claim C6: every `setDate` call fires the configured callback exactly once,
with the configured scope as receiver and the resulting selected month as a
first-of-month date, even when the resulting state equals the prior state; no
callback fires when none was configured. -/
theorem c6_callback_exactly_once (cfg : Config) (st : WState) (d : JSDate)
    (hmn : ValidDate cfg.minDate) (hmx : ValidDate cfg.maxDate) (hd : ValidDate d) :
    ((setDate cfg st (some d)).2.2 =
      if cfg.hasCallback then
        [(cfg.scope, (⟨(setDate cfg st (some d)).1.year,
          (setDate cfg st (some d)).1.month, 1, 0⟩ : JSDate))]
      else []) ∧
    ((setDate cfg st (some d)).1 = st →
      (setDate cfg st (some d)).2.2.length = if cfg.hasCallback then 1 else 0) := by
  have hv : (clamp cfg d).month < 12 := (clamp_valid cfg d hmn hmx hd).1
  have hsel : getSelectedDate (applyDate cfg d) = firstOfMonth (clamp cfg d) :=
    getSelectedDate_applyDate cfg d hv
  constructor
  · show (if cfg.hasCallback then [(cfg.scope, getSelectedDate (applyDate cfg d))] else []) = _
    rw [hsel]
    cases cfg.hasCallback <;> rfl
  · intro _
    show (if cfg.hasCallback then [(cfg.scope, getSelectedDate (applyDate cfg d))] else []).length = _
    cases cfg.hasCallback <;> rfl

/-- Witness for C6 at the sample configuration. -/
theorem c6_witness :
    ((setDate sampleCfg sampleState (some sampleDate)).2.2 =
      if sampleCfg.hasCallback then
        [(sampleCfg.scope, (⟨(setDate sampleCfg sampleState (some sampleDate)).1.year,
          (setDate sampleCfg sampleState (some sampleDate)).1.month, 1, 0⟩ : JSDate))]
      else []) ∧
    ((setDate sampleCfg sampleState (some sampleDate)).1 = sampleState →
      (setDate sampleCfg sampleState (some sampleDate)).2.2.length =
        if sampleCfg.hasCallback then 1 else 0) :=
  c6_callback_exactly_once sampleCfg sampleState sampleDate (by decide) (by decide) (by decide)

/-- Claim C2: `setDate(d)` computes the effective date by full-instant
comparison against the configured bounds — `max` if `d > max`, `min` if
`d < min`, otherwise `d` — and sets the selected month value to the effective
date's (year, month) with day and time discarded; in particular `d > max`
yields `selected = truncate(max)` and symmetrically for `d < min`. -/
theorem c2_clamping_policy (cfg : Config) (st : WState) (d : JSDate)
    (hmn : ValidDate cfg.minDate) (hmx : ValidDate cfg.maxDate) (hd : ValidDate d)
    (hr : dateLe cfg.minDate cfg.maxDate = true) :
    (dateLt cfg.maxDate d = true →
      (setDate cfg st (some d)).1.month = cfg.maxDate.month ∧
      (setDate cfg st (some d)).1.year = cfg.maxDate.year ∧
      getSelectedDate (setDate cfg st (some d)).1 = firstOfMonth cfg.maxDate) ∧
    (dateLt d cfg.minDate = true →
      (setDate cfg st (some d)).1.month = cfg.minDate.month ∧
      (setDate cfg st (some d)).1.year = cfg.minDate.year ∧
      getSelectedDate (setDate cfg st (some d)).1 = firstOfMonth cfg.minDate) ∧
    (dateLt cfg.maxDate d = false → dateLt d cfg.minDate = false →
      (setDate cfg st (some d)).1.month = d.month ∧
      (setDate cfg st (some d)).1.year = d.year ∧
      getSelectedDate (setDate cfg st (some d)).1 = firstOfMonth d) := by
  refine ⟨fun h => ?_, fun h => ?_, fun ha hb => ?_⟩
  · have hc : clamp cfg d = cfg.maxDate := by
      unfold clamp
      rw [if_pos h]
    refine ⟨?_, ?_, ?_⟩
    · rw [setDate_some_fst, applyDate_month, hc]
    · rw [setDate_some_fst, applyDate_year, hc]
    · rw [setDate_some_fst, getSelectedDate_applyDate cfg d (by rw [hc]; exact hmx.1), hc]
  · have hmaxd : dateLt cfg.maxDate d = false := by
      rw [dateLt_false_iff]
      rw [dateLt_iff] at h
      rw [dateLe_iff] at hr
      unfold DateLtP at *
      omega
    have hc : clamp cfg d = cfg.minDate := by
      unfold clamp
      rw [if_neg (by rw [hmaxd]; exact Bool.false_ne_true), if_pos h]
    refine ⟨?_, ?_, ?_⟩
    · rw [setDate_some_fst, applyDate_month, hc]
    · rw [setDate_some_fst, applyDate_year, hc]
    · rw [setDate_some_fst, getSelectedDate_applyDate cfg d (by rw [hc]; exact hmn.1), hc]
  · have hc : clamp cfg d = d := by
      unfold clamp
      rw [if_neg (by rw [ha]; exact Bool.false_ne_true),
        if_neg (by rw [hb]; exact Bool.false_ne_true)]
    refine ⟨?_, ?_, ?_⟩
    · rw [setDate_some_fst, applyDate_month, hc]
    · rw [setDate_some_fst, applyDate_year, hc]
    · rw [setDate_some_fst, getSelectedDate_applyDate cfg d (by rw [hc]; exact hd.1), hc]

/-- Witness for C2: the sample candidate 2020-08-01 exceeds the sample
maximum 2020-06-15 and the selection becomes June 2020, the truncated
maximum. -/
theorem c2_witness :
    dateLt sampleCfg.maxDate sampleDate = true ∧
    ((setDate sampleCfg sampleState (some sampleDate)).1.month = sampleCfg.maxDate.month ∧
      (setDate sampleCfg sampleState (some sampleDate)).1.year = sampleCfg.maxDate.year ∧
      getSelectedDate (setDate sampleCfg sampleState (some sampleDate)).1 =
        firstOfMonth sampleCfg.maxDate) :=
  ⟨by decide,
    (c2_clamping_policy sampleCfg sampleState sampleDate (by decide) (by decide) (by decide)
      (by decide)).1 (by decide)⟩

/-- Claim C3: after every `setDate`, the month option with value `m` is
disabled exactly when ((displayed year = min year) and (m < min month)) or
((displayed year = max year) and (m > max month)); in particular for an
interior displayed year no month option is disabled. -/
theorem c3_month_option_disabled_iff (cfg : Config) (st : WState) (d : JSDate) :
    (∀ m : Nat, m < 12 →
      (setDate cfg st (some d)).1.monthOptionDisabled[m]? =
        some (decide (((setDate cfg st (some d)).1.year = cfg.minDate.year ∧
            m < cfg.minDate.month) ∨
          ((setDate cfg st (some d)).1.year = cfg.maxDate.year ∧
            cfg.maxDate.month < m)))) ∧
    (cfg.minDate.year < (setDate cfg st (some d)).1.year →
      (setDate cfg st (some d)).1.year < cfg.maxDate.year →
      ∀ b ∈ (setDate cfg st (some d)).1.monthOptionDisabled, b = false) := by
  constructor
  · intro m hm
    rw [setDate_some_fst, applyDate_options, List.getElem?_map, List.getElem?_range hm,
      Option.map_some']
    congr 1
    unfold monthDisabledFlag
    rw [Bool.decide_or, Bool.decide_and, Bool.decide_and]
  · intro hlo hhi b hb
    rw [setDate_some_fst] at hlo hhi hb
    rw [applyDate_options] at hb
    obtain ⟨m, hm, rfl⟩ := List.mem_map.mp hb
    unfold monthDisabledFlag
    simp only [Bool.or_eq_false_iff, Bool.and_eq_false_iff, decide_eq_false_iff_not]
    omega

/-- Witness for C3 at the sample scenario: the August option (value 7) of
year 2020 is disabled because 7 exceeds the maximum month 5 (June). -/
theorem c3_witness :
    (setDate sampleCfg sampleState (some sampleDate)).1.monthOptionDisabled[7]? =
      some (decide (((setDate sampleCfg sampleState (some sampleDate)).1.year =
          sampleCfg.minDate.year ∧ 7 < sampleCfg.minDate.month) ∨
        ((setDate sampleCfg sampleState (some sampleDate)).1.year =
          sampleCfg.maxDate.year ∧ sampleCfg.maxDate.month < 7))) :=
  (c3_month_option_disabled_iff sampleCfg sampleState sampleDate).1 7 (by omega)

/-- Claim C1 counterexample: a valid configuration with `min <= max`
(min = 2020-01-15, max = 2020-12-31) and a successful `setDate` call
(candidate 2020-01-01, clamped to `min`) after which the stored first-of-month
selection (2020-01-01) is strictly below `range.min`, so
`range.min <= instant(selected)` fails as stated. -/
theorem c1_counterexample :
    ValidDate (⟨2020, 0, 15, 0⟩ : JSDate) ∧
    ValidDate (⟨2020, 11, 31, 0⟩ : JSDate) ∧
    ValidDate (⟨2020, 0, 1, 0⟩ : JSDate) ∧
    dateLe (⟨2020, 0, 15, 0⟩ : JSDate) ⟨2020, 11, 31, 0⟩ = true ∧
    (setDate ⟨⟨2020, 0, 15, 0⟩, ⟨2020, 11, 31, 0⟩, false, 0⟩
      ⟨0, 0, [], false, false, false, false⟩ (some ⟨2020, 0, 1, 0⟩)).2.1 = none ∧
    dateLe (⟨2020, 0, 15, 0⟩ : JSDate)
      (getSelectedDate (setDate ⟨⟨2020, 0, 15, 0⟩, ⟨2020, 11, 31, 0⟩, false, 0⟩
        ⟨0, 0, [], false, false, false, false⟩ (some ⟨2020, 0, 1, 0⟩)).1) = false := by
  decide

/-- Claim C1 as amended: for every valid configuration with `min <= max` and
after every successful `setDate` call (the construction-time call goes through
the same `_setDate`), the invariant
`truncate(range.min) <= instant(selected) <= range.max` holds, where
`selected` is the stored first-of-month value.  (The lower bound must be the
truncation of `min`: when `min` is not a first-of-month instant, clamping a
too-early candidate to `min` stores a selection strictly below `min`, as the
counterexample shows.) -/
theorem c1_amended_selected_in_range (cfg : Config) (st : WState) (d : JSDate)
    (hmn : ValidDate cfg.minDate) (hmx : ValidDate cfg.maxDate) (hd : ValidDate d)
    (hr : dateLe cfg.minDate cfg.maxDate = true) :
    dateLe (firstOfMonth cfg.minDate) (getSelectedDate (setDate cfg st (some d)).1) = true ∧
    dateLe (getSelectedDate (setDate cfg st (some d)).1) cfg.maxDate = true := by
  have he := clamp_valid cfg d hmn hmx hd
  have hge := clamp_ge_min cfg d hr
  have hle := clamp_le_max cfg d hr
  rw [setDate_some_fst, getSelectedDate_applyDate cfg d he.1]
  obtain ⟨h1, h2, h3, h4⟩ := he
  obtain ⟨g1, g2, g3, g4⟩ := hmx
  rw [dateLe_iff] at hge hle
  constructor
  · rw [dateLe_iff]
    simp only [DateLtP, firstOfMonth] at hge ⊢
    omega
  · rw [dateLe_iff]
    simp only [DateLtP, firstOfMonth] at hle ⊢
    omega

/-- Witness for the amended C1 at the sample scenario. -/
theorem c1_witness :
    dateLe (firstOfMonth sampleCfg.minDate)
      (getSelectedDate (setDate sampleCfg sampleState (some sampleDate)).1) = true ∧
    dateLe (getSelectedDate (setDate sampleCfg sampleState (some sampleDate)).1)
      sampleCfg.maxDate = true :=
  c1_amended_selected_in_range sampleCfg sampleState sampleDate (by decide) (by decide)
    (by decide) (by decide)

/-- Claim C7: construction fails exactly when one of `minDate`, `maxDate`,
`selectedDate` does not parse (in source order) or when `minDate > maxDate`,
and aborts with no widget state; in every other case it succeeds, and an
out-of-range `selectedDate` is silently clamped by the initial `_setDate`
call rather than rejected. -/
theorem c7_construction_validation (minD maxD selD : Option JSDate) (cb : Bool) (sc : Int) :
    (minD = none → monthSelector minD maxD selD cb sc = Except.error ConfigErr.invalidMinDate) ∧
    (∀ mn, minD = some mn → maxD = none →
      monthSelector minD maxD selD cb sc = Except.error ConfigErr.invalidMaxDate) ∧
    (∀ mn mx, minD = some mn → maxD = some mx → selD = none →
      monthSelector minD maxD selD cb sc = Except.error ConfigErr.invalidSelectedDate) ∧
    (∀ mn mx sel, minD = some mn → maxD = some mx → selD = some sel →
      dateLt mx mn = true →
      monthSelector minD maxD selD cb sc = Except.error ConfigErr.minExceedsMax) ∧
    (∀ mn mx sel, minD = some mn → maxD = some mx → selD = some sel →
      dateLt mx mn = false →
      monthSelector minD maxD selD cb sc =
        Except.ok (⟨mn, mx, cb, sc⟩, applyDate ⟨mn, mx, cb, sc⟩ sel,
          if cb then [(sc, getSelectedDate (applyDate ⟨mn, mx, cb, sc⟩ sel))] else [])) := by
  refine ⟨?_, ?_, ?_, ?_, ?_⟩
  · rintro rfl
    rfl
  · rintro mn rfl rfl
    rfl
  · rintro mn mx rfl rfl rfl
    rfl
  · rintro mn mx sel rfl rfl rfl hgt
    have hred : monthSelector (some mn) (some mx) (some sel) cb sc =
        (if dateLt mx mn then Except.error ConfigErr.minExceedsMax
         else Except.ok (⟨mn, mx, cb, sc⟩, applyDate ⟨mn, mx, cb, sc⟩ sel,
           if cb then [(sc, getSelectedDate (applyDate ⟨mn, mx, cb, sc⟩ sel))] else [])) := rfl
    rw [hred, hgt]
    rfl
  · rintro mn mx sel rfl rfl rfl hle
    exact monthSelector_ok mn mx sel cb sc hle

/-- Witness for C7: successful construction at the sample scenario, with the
out-of-range selected date clamped. -/
theorem c7_witness :
    dateLt sampleMax sampleMin = false ∧
    monthSelector (some sampleMin) (some sampleMax) (some sampleDate) true 0 =
      Except.ok (⟨sampleMin, sampleMax, true, 0⟩,
        applyDate ⟨sampleMin, sampleMax, true, 0⟩ sampleDate,
        if true then
          [((0 : Int), getSelectedDate (applyDate ⟨sampleMin, sampleMax, true, 0⟩ sampleDate))]
        else []) :=
  ⟨by decide,
    (c7_construction_validation (some sampleMin) (some sampleMax) (some sampleDate)
      true 0).2.2.2.2 sampleMin sampleMax sampleDate rfl rfl rfl (by decide)⟩

/-- Claim C9: after every `setDate` the month option of the displayed month
itself is enabled, and the displayed year lies between the minimum and
maximum years inclusive, hence is one of the generated year options. -/
theorem c9_displayed_month_enabled (cfg : Config) (st : WState) (d : JSDate)
    (hmn : ValidDate cfg.minDate) (hmx : ValidDate cfg.maxDate) (hd : ValidDate d)
    (hr : dateLe cfg.minDate cfg.maxDate = true) :
    (setDate cfg st (some d)).1.monthOptionDisabled[(setDate cfg st (some d)).1.month]? =
        some false ∧
    (cfg.minDate.year ≤ (setDate cfg st (some d)).1.year ∧
      (setDate cfg st (some d)).1.year ≤ cfg.maxDate.year) ∧
    (setDate cfg st (some d)).1.year ∈ yearOptions cfg := by
  have he := clamp_valid cfg d hmn hmx hd
  have hge := clamp_ge_min cfg d hr
  have hle := clamp_le_max cfg d hr
  have hyear := year_between cfg (clamp cfg d) hge hle
  refine ⟨?_, ?_, ?_⟩
  · rw [setDate_some_fst, applyDate_options, applyDate_month, List.getElem?_map,
      List.getElem?_range he.1, Option.map_some', applyDate_year,
      monthDisabledFlag_self cfg (clamp cfg d) hge hle]
  · rw [setDate_some_fst, applyDate_year]
    exact hyear
  · rw [setDate_some_fst, applyDate_year]
    exact year_mem_options cfg (clamp cfg d).year hyear.1 hyear.2

/-- Witness for C9 at the sample scenario. -/
theorem c9_witness :
    (setDate sampleCfg sampleState (some sampleDate)).1.monthOptionDisabled[
        (setDate sampleCfg sampleState (some sampleDate)).1.month]? = some false ∧
    (sampleCfg.minDate.year ≤ (setDate sampleCfg sampleState (some sampleDate)).1.year ∧
      (setDate sampleCfg sampleState (some sampleDate)).1.year ≤ sampleCfg.maxDate.year) ∧
    (setDate sampleCfg sampleState (some sampleDate)).1.year ∈ yearOptions sampleCfg :=
  c9_displayed_month_enabled sampleCfg sampleState sampleDate (by decide) (by decide)
    (by decide) (by decide)

/-- Claim C10: for every configuration with valid bounds and `min <= max`,
after every `setDate` the Previous/First actions are disabled exactly when the
displayed (month, year) equals the minimum's (month, year), and the Next/Last
actions are disabled exactly when the displayed (month, year) equals the
maximum's (month, year). -/
theorem c10_nav_disabled_iff_boundary (cfg : Config) (st : WState) (d : JSDate)
    (hmn : ValidDate cfg.minDate) (hmx : ValidDate cfg.maxDate) (hd : ValidDate d)
    (hr : dateLe cfg.minDate cfg.maxDate = true) :
    (((setDate cfg st (some d)).1.prevDisabled = true) ↔
      ((setDate cfg st (some d)).1.month = cfg.minDate.month ∧
        (setDate cfg st (some d)).1.year = cfg.minDate.year)) ∧
    (((setDate cfg st (some d)).1.firstDisabled = true) ↔
      ((setDate cfg st (some d)).1.month = cfg.minDate.month ∧
        (setDate cfg st (some d)).1.year = cfg.minDate.year)) ∧
    (((setDate cfg st (some d)).1.nextDisabled = true) ↔
      ((setDate cfg st (some d)).1.month = cfg.maxDate.month ∧
        (setDate cfg st (some d)).1.year = cfg.maxDate.year)) ∧
    (((setDate cfg st (some d)).1.lastDisabled = true) ↔
      ((setDate cfg st (some d)).1.month = cfg.maxDate.month ∧
        (setDate cfg st (some d)).1.year = cfg.maxDate.year)) := by
  have he := clamp_valid cfg d hmn hmx hd
  have hge := clamp_ge_min cfg d hr
  have hle := clamp_le_max cfg d hr
  have hp := prev_disabled_iff cfg.minDate (clamp cfg d) hmn he hge
  have hn := next_disabled_iff cfg.maxDate (clamp cfg d) hmx he hle
  exact ⟨hp, hp, hn, hn⟩

/-- Witness for C10 at the sample scenario (where Next/Last are disabled and
Previous/First are enabled). -/
theorem c10_witness :
    (((setDate sampleCfg sampleState (some sampleDate)).1.prevDisabled = true) ↔
      ((setDate sampleCfg sampleState (some sampleDate)).1.month = sampleCfg.minDate.month ∧
        (setDate sampleCfg sampleState (some sampleDate)).1.year = sampleCfg.minDate.year)) ∧
    (((setDate sampleCfg sampleState (some sampleDate)).1.firstDisabled = true) ↔
      ((setDate sampleCfg sampleState (some sampleDate)).1.month = sampleCfg.minDate.month ∧
        (setDate sampleCfg sampleState (some sampleDate)).1.year = sampleCfg.minDate.year)) ∧
    (((setDate sampleCfg sampleState (some sampleDate)).1.nextDisabled = true) ↔
      ((setDate sampleCfg sampleState (some sampleDate)).1.month = sampleCfg.maxDate.month ∧
        (setDate sampleCfg sampleState (some sampleDate)).1.year = sampleCfg.maxDate.year)) ∧
    (((setDate sampleCfg sampleState (some sampleDate)).1.lastDisabled = true) ↔
      ((setDate sampleCfg sampleState (some sampleDate)).1.month = sampleCfg.maxDate.month ∧
        (setDate sampleCfg sampleState (some sampleDate)).1.year = sampleCfg.maxDate.year)) :=
  c10_nav_disabled_iff_boundary sampleCfg sampleState sampleDate (by decide) (by decide)
    (by decide) (by decide)

end MonthSelector
